import Mathlib

namespace BridgeSafety

/-- Outcome of one awaited `axios` call: a fulfilled value, or a rejected
promise carrying the resolved error message (`e.response?.data?.message || e.message`). -/
inductive FetchResult (α : Type) where
  | fulfilled (value : α)
  | rejected (msg : String)
deriving DecidableEq

/-- Char-list helper: the first list is a leading segment of the second. -/
def leadMatch : List Char → List Char → Bool
  | [], _ => true
  | _ :: _, [] => false
  | a :: as, b :: bs => a = b && leadMatch as bs

/-- Char-list helper: the first list occurs contiguously inside the second. -/
def occursIn (sub : List Char) : List Char → Bool
  | [] => leadMatch sub []
  | c :: cs => leadMatch sub (c :: cs) || occursIn sub cs

/-- JavaScript `s.includes(sub)`: substring containment. -/
def jsIncludes (s sub : String) : Bool :=
  occursIn sub.data s.data

/-- JavaScript `s.toLowerCase()` (ASCII, which covers every key this program
lower-cases). -/
def jsToLower (s : String) : String :=
  String.mk (s.data.map Char.toLower)

/-- JavaScript `s.toUpperCase()` (ASCII). -/
def jsToUpper (s : String) : String :=
  String.mk (s.data.map Char.toUpper)

/-- JavaScript `s.trim()`: strip leading and trailing whitespace. -/
def jsTrim (s : String) : String :=
  let ws := fun c => c = ' ' || c = '\t' || c = '\n' || c = '\r'
  String.mk (((s.data.dropWhile ws).reverse.dropWhile ws).reverse)

/-- JavaScript `s.startsWith(pre)`. -/
def jsStartsWith (s pre : String) : Bool :=
  leadMatch pre.data s.data

/-- Value of a list of decimal digit characters read as a natural number. -/
def digitsToNat (ds : List Char) : Nat :=
  ds.foldl (fun a c => a * 10 + (c.toNat - '0'.toNat)) 0

/-- Value of a list of decimal digit characters read as a fractional part. -/
def fracVal (ds : List Char) : ℚ :=
  (digitsToNat ds : ℚ) / ((10 : ℚ) ^ ds.length)

/-- JavaScript `parseFloat`, for the decimal forms this program feeds it
(optional leading whitespace and sign, digits with an optional fractional
part; `none` models `NaN`). -/
def jsParseFloat (s : String) : Option ℚ :=
  let cs := s.data.dropWhile (fun c => c = ' ' || c = '\t' || c = '\n' || c = '\r')
  let sign : ℚ × List Char :=
    match cs with
    | '-' :: rest => (-1, rest)
    | '+' :: rest => (1, rest)
    | _ => (1, cs)
  let d1 := sign.2.takeWhile Char.isDigit
  let rest := sign.2.drop d1.length
  match rest with
  | '.' :: rest2 =>
      let d2 := rest2.takeWhile Char.isDigit
      if d1 = [] && d2 = [] then none
      else some (sign.1 * ((digitsToNat d1 : ℚ) + fracVal d2))
  | _ => if d1 = [] then none else some (sign.1 * (digitsToNat d1 : ℚ))

/-- JavaScript `s.replace(/[^0-9.]/g, '')`: keep only digits and dots. -/
def stripNonNumeric (s : String) : String :=
  String.mk (s.data.filter (fun c => c.isDigit || c = '.'))

/-- JavaScript `s.replace(/v\d+$/i, '')`: drop a trailing `v`+digits suffix. -/
def stripVersionSuffix (s : String) : String :=
  let r := s.data.reverse
  let ds := r.takeWhile Char.isDigit
  match r.drop ds.length with
  | c :: rest =>
      if (c = 'v' || c = 'V') && ds.length > 0 then String.mk rest.reverse else s
  | [] => s

/-- Left-pad a string with zeros up to length `f`. -/
def padZeros (f : Nat) (s : String) : String :=
  if s.length < f then String.mk (List.replicate (f - s.length) '0') ++ s else s

/-- JavaScript `Number.prototype.toFixed(f)` on the idealized rational value
(round to nearest, ties toward positive infinity). -/
def toFixedStr (f : Nat) (q : ℚ) : String :=
  let n : Int := ⌊q * (10 : ℚ) ^ f + 1 / 2⌋
  let m := n.natAbs
  let ip := m / 10 ^ f
  let fp := m % 10 ^ f
  (if n < 0 then "-" else "") ++ toString ip ++
    (if f = 0 then "" else "." ++ padZeros f (toString fp))

/-- Raw chain argument as the JavaScript functions receive it: absent,
a number, or a string. -/
inductive ChainRef where
  | noInput
  | num (n : Int)
  | str (s : String)
deriving DecidableEq

/-- Canonical chain identifier produced by `normalizeChain`: numeric id or a
string key (non-EVM chains and pass-through values). -/
inductive ChainId where
  | num (n : Int)
  | str (s : String)
deriving DecidableEq

/-- First-match association-list lookup, modelling JS object indexing. -/
def lookupMap {α : Type} (m : List (String × α)) (k : String) : Option α :=
  (m.find? (fun e => e.1 == k)).map (fun e => e.2)

/-- The `CHAIN_MAP` constant of `tools.js`. -/
def CHAIN_MAP : List (String × ChainId) :=
  [("eth", .num 1), ("mainnet", .num 1), ("ethereum", .num 1),
   ("arb", .num 42161), ("arbitrum", .num 42161),
   ("opt", .num 10), ("optimism", .num 10), ("op", .num 10),
   ("base", .num 8453),
   ("pol", .num 137), ("polygon", .num 137), ("matic", .num 137),
   ("zksync", .num 324), ("era", .num 324),
   ("linea", .num 59144),
   ("blast", .num 81457),
   ("bsc", .num 56), ("bnb", .num 56), ("binance", .num 56),
   ("opbnb", .num 204),
   ("ava", .num 43114), ("avalanche", .num 43114),
   ("sol", .str "sol"), ("solana", .str "sol")]

/-- The `normalizeChain` function of `tools.js`: falsy input defaults to the
string `'eth'`; numbers pass through; strings are lower-cased, trimmed and
looked up in `CHAIN_MAP`, unknown keys passing through unchanged. -/
def normalizeChain : ChainRef → ChainId
  | .noInput => .str "eth"
  | .num n => if n = 0 then .str "eth" else .num n
  | .str s =>
      if s = "" then .str "eth"
      else
        let key := jsTrim (jsToLower s)
        match lookupMap CHAIN_MAP key with
        | some c => c
        | none => .str key

/-- The `CHAIN_MAP[chain] || chain` expression used when building the
multi-route request parameters. -/
def chainMapOr (c : ChainId) : ChainId :=
  match c with
  | .num n => .num n
  | .str s =>
      match lookupMap CHAIN_MAP s with
      | some c2 => c2
      | none => .str s

/-- View a normalized chain id back as a raw chain argument (the aggregator
passes already-normalized chains into `getTokenDetails`). -/
def ChainId.toRef : ChainId → ChainRef
  | .num n => .num n
  | .str s => .str s

/-- The `formatDuration` function of `tools.js` (`none` and `0` are falsy). -/
def formatDuration : Option Nat → String
  | none => "Unknown"
  | some s =>
      if s = 0 then "Unknown"
      else if s < 60 then toString s ++ "s"
      else
        let min := s / 60
        if min < 60 then toString min ++ "m"
        else toString (min / 60) ++ "h " ++ toString (min % 60) ++ "m"

/-- One fee line item of a route (`estimate.feeCosts` entry); `amountUSD` is
the upstream string, `none` modelling an absent field. -/
structure FeeCost where
  name : String
  amountUSD : Option String
deriving DecidableEq

/-- The USD value one fee line item contributes in
`parseFloat(f.amountUSD || 0)`: an absent or empty field becomes `0`;
an unparseable string becomes `NaN`, modelled as `none`. -/
def feeUSD (f : FeeCost) : Option ℚ :=
  match f.amountUSD with
  | none => some 0
  | some s => if s = "" then some 0 else jsParseFloat s

/-- JavaScript `+` on possibly-NaN numbers (`none` = `NaN`, which absorbs). -/
def nanAdd : Option ℚ → Option ℚ → Option ℚ
  | some a, some b => some (a + b)
  | _, _ => none

/-- The `reduce((sum, f) => sum + parseFloat(f.amountUSD || 0), 0)` fold used
by `getRoute` and `getBridgeOptions`. -/
def sumUSD (fees : List FeeCost) : Option ℚ :=
  fees.foldl (fun acc f => nanAdd acc (feeUSD f)) (some 0)

/-- Aggregator-fee selection: `fees.filter(f => f.name.includes('LIFI'))`. -/
def aggFees (fees : List FeeCost) : List FeeCost :=
  fees.filter (fun f => jsIncludes f.name "LIFI")

/-- Protocol-fee selection: `fees.filter(f => !f.name.includes('LIFI'))`. -/
def protFees (fees : List FeeCost) : List FeeCost :=
  fees.filter (fun f => !jsIncludes f.name "LIFI")

/-- JavaScript `x.toFixed(4)` on a possibly-NaN subtotal. -/
def usdToFixed4 : Option ℚ → String
  | none => "NaN"
  | some q => toFixedStr 4 q

/-- One entry of the DefiLlama protocol directory (slug and display name). -/
structure ProtocolEntry where
  slug : String
  name : String
deriving DecidableEq

/-- The static `overrides` table of `getProtocolSlug`. -/
def overrides : List (String × String) :=
  [("cbridge", "celer-network"), ("amarok", "connext"), ("circle", "cctp")]

/-- Stage 1 directory search of `getProtocolSlug`: exact slug or lower-cased
display-name match. -/
def findExact (searchName : String) (dir : List ProtocolEntry) : Option ProtocolEntry :=
  dir.find? (fun p => p.slug == searchName || jsToLower p.name == searchName)

/-- Stage 2 directory search of `getProtocolSlug`: slug contains the key, or
display name contains the key, or the key contains the slug. -/
def findContains (searchName : String) (dir : List ProtocolEntry) : Option ProtocolEntry :=
  dir.find? (fun p =>
    jsIncludes p.slug searchName || jsIncludes (jsToLower p.name) searchName ||
      jsIncludes searchName p.slug)

/-- Stage 3 directory search of `getProtocolSlug`: exact or containment match
against the version-stripped key. -/
def findStripped (strippedName : String) (dir : List ProtocolEntry) : Option ProtocolEntry :=
  dir.find? (fun p => p.slug == strippedName || jsIncludes p.slug strippedName)

/-- The directory-search body of `getProtocolSlug` (everything after the
override check, given a fetched directory): exact match, then containment
match, then version-stripped match, then fall back to the original input. -/
def searchDirectory (searchName bridgeName : String) (dir : List ProtocolEntry) : String :=
  match findExact searchName dir with
  | some p => p.slug
  | none =>
      match findContains searchName dir with
      | some p => p.slug
      | none =>
          let strippedName := stripVersionSuffix searchName
          if strippedName ≠ searchName then
            match findStripped strippedName dir with
            | some p => p.slug
            | none => bridgeName
          else bridgeName

/-- Which rule of the ordered chain in `getProtocolSlug` produces the result
for a given input and directory: `0` override, `1` exact, `2` containment,
`3` version-stripped, `4` fall-through to the original input. -/
def resolutionStage (bridgeName : String) (dir : List ProtocolEntry) : Nat :=
  let searchName := jsTrim (jsToLower bridgeName)
  match lookupMap overrides searchName with
  | some _ => 0
  | none =>
      match findExact searchName dir with
      | some _ => 1
      | none =>
          match findContains searchName dir with
          | some _ => 2
          | none =>
              let strippedName := stripVersionSuffix searchName
              if strippedName ≠ searchName then
                match findStripped strippedName dir with
                | some _ => 3
                | none => 4
              else 4

/-- Body of a fulfilled `li.quest/v1/token` response. -/
structure TokenData where
  symbol : String
  address : String
  decimals : Int
  chainId : ChainId
  priceUSD : String
deriving DecidableEq

/-- One entry of the `api.llama.fi/hacks` response (`date` in epoch seconds). -/
structure Hack where
  name : String
  date : Int
  classification : String
  amount : Int
deriving DecidableEq

/-- The `data.tvl` field of an `api.llama.fi/protocol/<slug>` response when it
is truthy: either an array of `{totalLiquidityUSD}` points or some other
truthy non-array value. -/
inductive JsTvl where
  | arr (totalLiquidityUSD : List ℚ)
  | nonArr
deriving DecidableEq

/-- Body of a fulfilled `api.llama.fi/protocol/<slug>` response; `none` fields
model absent or falsy values (`currentChainTvls` values via `Object.values`). -/
structure ProtocolData where
  tvl : Option JsTvl
  currentChainTvls : Option (List ℚ)
deriving DecidableEq

/-- One entry of `r.steps` in an advanced-routes response, with the fields
the aggregator reads from `steps[0]`. -/
structure Step where
  toolKey : String
  feeCosts : List FeeCost
  executionDuration : Option Nat
deriving DecidableEq

/-- One route of a `li.quest/v1/advanced/routes` response. -/
structure Route where
  steps : List Step
  toAmount : String
  gasCostUSD : String
deriving DecidableEq

/-- The request body `getBridgeOptions` posts to the multi-route endpoint. -/
structure RouteParams where
  fromChainId : ChainId
  toChainId : ChainId
  fromTokenAddress : String
  toTokenAddress : String
  fromAmount : String
  order : String
  limit : Nat
deriving DecidableEq

/-- One outbound network call of the engine. -/
inductive NetCall where
  | tokenLookup (chain : ChainId) (token : String)
  | routesFetch (params : RouteParams)
  | protocolsFetch
  | tvlFetch (slug : String)
  | hacksFetch
deriving DecidableEq

/-- The network environment one request cycle runs against: the response (or
rejection) each endpoint would deliver, plus `Date.now()` in milliseconds. -/
structure Env where
  tokenLookup : ChainId → String → FetchResult TokenData
  routes : RouteParams → FetchResult (List Route)
  protocols : FetchResult (List ProtocolEntry)
  tvl : String → FetchResult ProtocolData
  hacks : FetchResult (List Hack)
  now : Int

/-- The `getProtocolSlug` function of `tools.js`, with the module-level
`allProtocolsCache` passed and returned explicitly, and the network calls it
issues recorded.  Override hits return before any fetch; with a cached or
freshly fetched directory the ordered search runs; a failed directory fetch
falls back to the lower-cased key (the override table was already missed). -/
def getProtocolSlug (env : Env) (cache : Option (List ProtocolEntry))
    (bridgeName : String) : String × Option (List ProtocolEntry) × List NetCall :=
  let searchName := jsTrim (jsToLower bridgeName)
  match lookupMap overrides searchName with
  | some s => (s, cache, [])
  | none =>
      match cache with
      | some dir => (searchDirectory searchName bridgeName dir, some dir, [])
      | none =>
          match env.protocols with
          | .fulfilled dir =>
              (searchDirectory searchName bridgeName dir, some dir, [.protocolsFetch])
          | .rejected _ => (searchName, none, [.protocolsFetch])

/-- Result of `getTokenDetails`: the `success: true` object or the
`success: false` object with its error message. -/
inductive TokenDetailsResult where
  | ok (symbol address : String) (decimals : Int) (chainId : ChainId) (priceUSD : String)
  | err (msg : String)
deriving DecidableEq

/-- The `FALLBACK_TOKENS` table of `getTokenDetails`, keyed by normalized
chain and upper-cased symbol. -/
def FALLBACK_TOKENS (chain : ChainId) (symU : String) : Option (String × Int) :=
  match chain with
  | .num 42161 =>
      if symU = "USDT" then some ("0xFd086bC7CD5C481DCC9C85ebE478A1C0b69FCbb9", 6)
      else if symU = "USDC" then some ("0xaf88d065e77c8cC2239327C5EDb3A432268e5831", 6)
      else none
  | .num 10 =>
      if symU = "USDT" then some ("0x94b008aA00579c1307B0EF2c499a98a359659952", 6)
      else none
  | _ => none

/-- The `getTokenDetails` function of `tools.js`: one token-lookup call; on
rejection consult the static fallback table, else propagate the error. -/
def getTokenDetails (env : Env) (chainRaw : ChainRef) (tokenSymbol : String) :
    TokenDetailsResult × List NetCall :=
  let chain := normalizeChain chainRaw
  match env.tokenLookup chain tokenSymbol with
  | .fulfilled d =>
      (.ok d.symbol d.address d.decimals d.chainId d.priceUSD, [.tokenLookup chain tokenSymbol])
  | .rejected msg =>
      match FALLBACK_TOKENS chain (jsToUpper tokenSymbol) with
      | some f =>
          (.ok (jsToUpper tokenSymbol) f.1 f.2 chain "Unknown (Fallback)",
            [.tokenLookup chain tokenSymbol])
      | none => (.err msg, [.tokenLookup chain tokenSymbol])

/-- The token-resolution step of `getBridgeOptions` for one token: an
address-shaped input (`startsWith('0x')`) is kept as-is without any lookup;
otherwise `getTokenDetails` is consulted and its address used on success,
the raw input kept on failure. -/
def resolveTokenAddr (env : Env) (chain : ChainId) (raw : String) : String × List NetCall :=
  if jsStartsWith raw "0x" then (raw, [])
  else
    let td := getTokenDetails env chain.toRef raw
    match td.1 with
    | .ok _ address _ _ _ => (address, td.2)
    | .err _ => (raw, td.2)

/-- The object `getSecurityStats` returns on its success path. -/
structure SecurityStats where
  bridge : String
  tvl : String
  recent_hack_count : Nat
  hack_details : List String
  audit_status : String
deriving DecidableEq

/-- The object `calculateRiskScore` returns. -/
structure RiskAssessment where
  score : Int
  verdict : String
  explanation : String
deriving DecidableEq

/-- The `calculateRiskScore` function of `tools.js`.  A positive recent-hack
count short-circuits to the DANGER object; otherwise the score starts at 100,
drops 30 for an `"Unknown"` TVL or 20 for a parsed TVL below 10 (millions of
USD; an unparseable TVL is `NaN`, and `NaN < 10` is false, so no penalty),
and the verdict thresholds are applied to the final score. -/
def calculateRiskScore (securityStats : SecurityStats) : RiskAssessment :=
  if securityStats.recent_hack_count > 0 then
    { score := 0
      verdict := "DANGER"
      explanation := "DANGER: Protocol has " ++ toString securityStats.recent_hack_count ++
        " recent hacks. Immediate risk." }
  else
    let sr : Int × List String :=
      if securityStats.tvl = "Unknown" then
        (100 - 30, ["Penalty: TVL data unavailable (-30)"])
      else
        match jsParseFloat (stripNonNumeric securityStats.tvl) with
        | some tvlNum =>
            if tvlNum < 10 then
              (100 - 20, ["Caution: Low TVL (" ++ securityStats.tvl ++ " < $10M) (-20)"])
            else (100, [])
        | none => (100, [])
    let score := sr.1
    let rules := sr.2
    let verdict := if score < 40 then "DANGER" else if score < 80 then "CAUTION" else "SECURE"
    { score := score
      verdict := verdict
      explanation :=
        if rules.length > 0 then String.intercalate "; " rules
        else "Standard security checks passed." }

/-- What `getSecurityStats` can hand to its caller: the stats object, or the
`{ bridge, error: "Security data unavailable" }` object produced by its catch
branch.  With well-typed responses nothing inside the `try` block can throw
(both fetches sit behind `Promise.allSettled`), so the model never builds the
`unavailable` form; the constructor exists so that claims about it can be
stated. -/
inductive SecurityOut where
  | stats (s : SecurityStats)
  | unavailable (bridge : String)
deriving DecidableEq

/-- The `getSecurityStats` function of `tools.js`: resolve the slug, issue the
TVL and hacks fetches with independent completion, fold a fulfilled TVL body
into a `"$<millions>M"` string (defaulting to `"Unknown"`), filter hacks by
slug containment and by the two-year window, and assemble the stats object. -/
def getSecurityStats (env : Env) (cache : Option (List ProtocolEntry))
    (bridgeName : String) : SecurityOut × Option (List ProtocolEntry) × List NetCall :=
  let r0 := getProtocolSlug env cache bridgeName
  let slug := r0.1
  let tvl : String :=
    match env.tvl slug with
    | .fulfilled d =>
        match d.tvl with
        | some tv =>
            let rawTvl : ℚ :=
              match tv with
              | .arr items => items.foldl (fun a b => a + b) 0
              | .nonArr =>
                  match d.currentChainTvls with
                  | some vals => vals.foldl (fun a b => a + b) 0
                  | none => 0
            "$" ++ toFixedStr 2 (rawTvl / 1000000) ++ "M"
        | none => "Unknown"
    | .rejected _ => "Unknown"
  let hacks : List Hack :=
    match env.hacks with
    | .fulfilled hs => hs.filter (fun h => jsIncludes (jsToLower h.name) slug)
    | .rejected _ => []
  let recentHacks :=
    hacks.filter (fun h => decide ((h.date : ℚ) > (env.now : ℚ) / 1000 - 63072000))
  (SecurityOut.stats
    { bridge := bridgeName
      tvl := tvl
      recent_hack_count := recentHacks.length
      hack_details := recentHacks.map (fun h =>
        toString h.date ++ ": " ++ h.classification ++ " ($" ++ toString h.amount ++ " lost)")
      audit_status := "Check L2Beat for details" },
   r0.2.1, r0.2.2 ++ [.tvlFetch slug, .hacksFetch])

/-- One element of the `options` array `getBridgeOptions` returns. -/
structure RouteOption where
  bridge : String
  amountOut : String
  gasCostUSD : String
  protocolFeeUSD : String
  aggregatorFeeUSD : String
  executionDuration : String
  riskScore : Int
  securityVerdict : String
  securityReason : String
deriving DecidableEq

/-- The per-route callback inside `getBridgeOptions`: read `steps[0]` (an
empty `steps` array throws), assess security and risk, split and total the
fees, and build the option object.  Feeding the catch-branch object of
`getSecurityStats` into `calculateRiskScore` throws a `TypeError`
(`undefined.replace`), modelled as the error case. -/
def processRoute (env : Env) (cache : Option (List ProtocolEntry)) (r : Route) :
    Except String RouteOption × Option (List ProtocolEntry) × List NetCall :=
  match r.steps with
  | [] =>
      (Except.error "TypeError: Cannot read properties of undefined (reading 'toolDetails')",
        cache, [])
  | step :: _ =>
      let sec := getSecurityStats env cache step.toolKey
      ((match sec.1 with
        | SecurityOut.unavailable _ =>
            Except.error "TypeError: Cannot read properties of undefined (reading 'replace')"
        | SecurityOut.stats st =>
            let risk := calculateRiskScore st
            let fees := step.feeCosts
            Except.ok
              { bridge := step.toolKey
                amountOut := r.toAmount
                gasCostUSD := r.gasCostUSD
                protocolFeeUSD := usdToFixed4 (sumUSD (protFees fees))
                aggregatorFeeUSD := usdToFixed4 (sumUSD (aggFees fees))
                executionDuration := formatDuration step.executionDuration
                riskScore := risk.score
                securityVerdict := risk.verdict
                securityReason := risk.explanation }),
       sec.2.1, sec.2.2)

/-- `Promise.all` over the per-route callbacks: every callback runs (all
calls are issued), and the first per-route exception in route order rejects
the whole batch. -/
def processRoutes (env : Env) (cache : Option (List ProtocolEntry)) :
    List Route → Except String (List RouteOption) × Option (List ProtocolEntry) × List NetCall
  | [] => (Except.ok [], cache, [])
  | r :: rs =>
      let h := processRoute env cache r
      let t := processRoutes env h.2.1 rs
      ((match h.1, t.1 with
        | Except.error m, _ => Except.error m
        | Except.ok _, Except.error m => Except.error m
        | Except.ok o, Except.ok os => Except.ok (o :: os)),
       t.2.1, h.2.2 ++ t.2.2)

/-- Arguments of `getBridgeOptions` (`toTokenRaw` may be absent, defaulting
to `fromTokenRaw`). -/
structure BridgeArgs where
  fromChainRaw : ChainRef
  toChainRaw : ChainRef
  fromTokenRaw : String
  amountRaw : String
  toTokenRaw : Option String
deriving DecidableEq

/-- The `toTokenRaw || fromTokenRaw` default: an absent or empty (falsy)
destination token falls back to the source token. -/
def effToToken (a : BridgeArgs) : String :=
  match a.toTokenRaw with
  | some s => if s = "" then a.fromTokenRaw else s
  | none => a.fromTokenRaw

/-- The request parameters `getBridgeOptions` builds for the multi-route
endpoint after normalizing chains and resolving both tokens. -/
def bridgeParams (env : Env) (a : BridgeArgs) : RouteParams :=
  let fromChain := normalizeChain a.fromChainRaw
  let toChain := normalizeChain a.toChainRaw
  { fromChainId := chainMapOr fromChain
    toChainId := chainMapOr toChain
    fromTokenAddress := (resolveTokenAddr env fromChain a.fromTokenRaw).1
    toTokenAddress := (resolveTokenAddr env toChain (effToToken a)).1
    fromAmount := a.amountRaw
    order := "RECOMMENDED"
    limit := 3 }

/-- Result of `getBridgeOptions`: the `success: true` object with its options
array, or the `success: false` object with the caught error message. -/
inductive BridgeResult where
  | ok (options : List RouteOption)
  | err (msg : String)
deriving DecidableEq

/-- The `getBridgeOptions` function of `tools.js`: resolve both tokens
(address-shaped inputs pass through), post the multi-route request, then map
every returned route through the per-route callback under `Promise.all`; a
rejected route fetch or a per-route exception surfaces as the
`success: false` object. -/
def getBridgeOptions (env : Env) (cache : Option (List ProtocolEntry)) (a : BridgeArgs) :
    BridgeResult × Option (List ProtocolEntry) × List NetCall :=
  let fromChain := normalizeChain a.fromChainRaw
  let toChain := normalizeChain a.toChainRaw
  let c1 := (resolveTokenAddr env fromChain a.fromTokenRaw).2
  let c2 := (resolveTokenAddr env toChain (effToToken a)).2
  let params := bridgeParams env a
  match env.routes params with
  | .rejected msg => (.err msg, cache, c1 ++ c2 ++ [.routesFetch params])
  | .fulfilled rs =>
      let pr := processRoutes env cache rs
      ((match pr.1 with
        | Except.error msg => BridgeResult.err msg
        | Except.ok options => BridgeResult.ok options),
       pr.2.1, c1 ++ c2 ++ [.routesFetch params] ++ pr.2.2)

/-- The TVL field holds a known value below ten million USD: it is not the
`"Unknown"` marker and the scorer's parse of it yields a number below 10
(the TVL strings are denominated in millions). -/
def tvlKnownLT10M (tvl : String) : Prop :=
  tvl ≠ "Unknown" ∧ ∃ q : ℚ, jsParseFloat (stripNonNumeric tvl) = some q ∧ q < 10

/-- The TVL field holds a known value of at least ten million USD. -/
def tvlKnownGE10M (tvl : String) : Prop :=
  tvl ≠ "Unknown" ∧ ∃ q : ℚ, jsParseFloat (stripNonNumeric tvl) = some q ∧ 10 ≤ q

/-- An environment in which every endpoint times out. -/
def envDown : Env :=
  { tokenLookup := fun _ _ => .rejected "timeout of 10000ms exceeded"
    routes := fun _ => .rejected "timeout of 15000ms exceeded"
    protocols := .rejected "timeout of 15000ms exceeded"
    tvl := fun _ => .rejected "timeout of 10000ms exceeded"
    hacks := .rejected "timeout of 10000ms exceeded"
    now := 1760140800000 }

/-- A baseline stats object with no recent incidents. -/
def bEx : SecurityStats :=
  { bridge := "across", tvl := "Unknown", recent_hack_count := 0, hack_details := [],
    audit_status := "Check L2Beat for details" }

/-- Stats with unknown TVL and no incidents. -/
def sUnknownEx : SecurityStats := bEx

/-- Stats identical to `sUnknownEx` except for a known TVL of five million USD. -/
def sLowEx : SecurityStats := { bEx with tvl := "$5.00M" }

/-- A protocol directory containing exactly the slug `"stargate"`. -/
def stargateDir : List ProtocolEntry :=
  [{ slug := "stargate", name := "Stargate Finance" }]

/-- An environment whose protocol directory contains exactly `"stargate"`. -/
def env7 : Env := { envDown with protocols := .fulfilled stargateDir }

/-- A protocol directory containing an entry that matches `"cbridge"` by the
exact rule. -/
def dirCbridge : List ProtocolEntry :=
  [{ slug := "cbridge", name := "cBridge" }]

/-- An environment whose protocol directory would also match `"cbridge"`. -/
def envC : Env := { envDown with protocols := .fulfilled dirCbridge }

/-- A route step with a mixed fee list. -/
def stepEx (k : String) : Step :=
  { toolKey := k
    feeCosts := [{ name := "LIFI Fixed Fee", amountUSD := some "1.25" },
                 { name := "Relayer gas fee", amountUSD := some "0.50" }]
    executionDuration := some 120 }

/-- A fulfilled three-route comparison result. -/
def rsEx : List Route :=
  [{ steps := [stepEx "across"], toAmount := "99000000", gasCostUSD := "0.42" },
   { steps := [stepEx "stargateV2"], toAmount := "98500000", gasCostUSD := "0.40" },
   { steps := [stepEx "hop"], toAmount := "98000000", gasCostUSD := "0.45" }]

/-- An environment where the route fetch succeeds with three routes but every
security-data fetch times out. -/
def env2 : Env := { envDown with routes := fun _ => .fulfilled rsEx }

/-- Symbol-token arguments for a three-route comparison. -/
def argsEx : BridgeArgs :=
  { fromChainRaw := .str "arb", toChainRaw := .str "opt", fromTokenRaw := "USDT",
    amountRaw := "100000000", toTokenRaw := some "USDT" }

/-- Address-shaped token arguments. -/
def args9 : BridgeArgs :=
  { fromChainRaw := .str "arb", toChainRaw := .str "opt",
    fromTokenRaw := "0xFd086bC7CD5C481DCC9C85ebE478A1C0b69FCbb9",
    amountRaw := "100000000",
    toTokenRaw := some "0x94b008aA00579c1307B0EF2c499a98a359659952" }

/-- Evaluation of the scorer on the unknown-TVL, no-incident path. -/
theorem riskScore_unknown (s : SecurityStats) (h0 : s.recent_hack_count = 0)
    (ht : s.tvl = "Unknown") :
    calculateRiskScore s =
      { score := 70, verdict := "CAUTION",
        explanation := "Penalty: TVL data unavailable (-30)" } := by
  unfold calculateRiskScore
  rw [h0, ht]
  rfl

/-- Evaluation of the scorer on the known-low-TVL, no-incident path. -/
theorem riskScore_low (s : SecurityStats) (h0 : s.recent_hack_count = 0)
    (ht : s.tvl ≠ "Unknown") (q : ℚ) (hp : jsParseFloat (stripNonNumeric s.tvl) = some q)
    (hq : q < 10) :
    calculateRiskScore s =
      { score := 80, verdict := "SECURE",
        explanation := "Caution: Low TVL (" ++ s.tvl ++ " < $10M) (-20)" } := by
  unfold calculateRiskScore
  rw [h0, if_neg (by decide : ¬ (0 : Nat) > 0), if_neg ht, hp]
  dsimp only
  rw [if_pos hq]
  rfl

/-- Evaluation of the scorer on the known-high-TVL, no-incident path. -/
theorem riskScore_high (s : SecurityStats) (h0 : s.recent_hack_count = 0)
    (ht : s.tvl ≠ "Unknown") (q : ℚ) (hp : jsParseFloat (stripNonNumeric s.tvl) = some q)
    (hq : ¬ q < 10) :
    calculateRiskScore s =
      { score := 100, verdict := "SECURE",
        explanation := "Standard security checks passed." } := by
  unfold calculateRiskScore
  rw [h0, if_neg (by decide : ¬ (0 : Nat) > 0), if_neg ht, hp]
  dsimp only
  rw [if_neg hq]
  rfl

/-- Evaluation of the scorer when the TVL string does not parse (`NaN`). -/
theorem riskScore_nan (s : SecurityStats) (h0 : s.recent_hack_count = 0)
    (ht : s.tvl ≠ "Unknown") (hp : jsParseFloat (stripNonNumeric s.tvl) = none) :
    calculateRiskScore s =
      { score := 100, verdict := "SECURE",
        explanation := "Standard security checks passed." } := by
  unfold calculateRiskScore
  rw [h0, if_neg (by decide : ¬ (0 : Nat) > 0), if_neg ht, hp]
  rfl

/-- Evaluation of the scorer's parse on the TVL string of `sLowEx`. -/
theorem parse_5M : jsParseFloat (stripNonNumeric "$5.00M") = some 5 := by
  have h : jsParseFloat (stripNonNumeric "$5.00M") =
      some ((1 : ℚ) * (((5 : ℕ) : ℚ) + ((0 : ℕ) : ℚ) / (10 : ℚ) ^ (2 : ℕ))) := rfl
  rw [h]
  norm_num

/-- Evaluation of the scorer's parse on a fifteen-million-USD TVL string. -/
theorem parse_15M : jsParseFloat (stripNonNumeric "$15.00M") = some 15 := by
  have h : jsParseFloat (stripNonNumeric "$15.00M") =
      some ((1 : ℚ) * (((15 : ℕ) : ℚ) + ((0 : ℕ) : ℚ) / (10 : ℚ) ^ (2 : ℕ))) := rfl
  rw [h]
  norm_num

/-- Claim C1 (counterexample): with zero recent incidents and stats identical
except for TVL, the known-TVL-below-$10M stats score 80 while the unknown-TVL
stats score 70, so the claimed "unknown scores no lower than known TVL below
$10M" inequality fails. -/
theorem c1_monotonicity_counterexample :
    (calculateRiskScore sLowEx).score = 80 ∧ (calculateRiskScore sUnknownEx).score = 70 ∧
      ¬ (calculateRiskScore sLowEx).score ≤ (calculateRiskScore sUnknownEx).score := by
  rw [riskScore_low sLowEx rfl (by decide) 5 parse_5M (by norm_num),
      riskScore_unknown sUnknownEx rfl rfl]
  exact ⟨rfl, rfl, by norm_num⟩

/-- Claim C1 (amended): for stats with zero recent incidents differing only
in TVL, a known TVL of at least $10M scores no lower than the unknown-TVL
case, and a known TVL below $10M also scores no lower than the unknown-TVL
case — the second comparison of the original claim holds in the reverse
direction, because the unknown-TVL penalty (30) exceeds the low-TVL
penalty (20). -/
theorem c1_score_monotonicity_amended (b : SecurityStats) (tHigh tLow : String)
    (h0 : b.recent_hack_count = 0)
    (hHigh : tvlKnownGE10M tHigh) (hLow : tvlKnownLT10M tLow) :
    (calculateRiskScore { b with tvl := "Unknown" }).score ≤
        (calculateRiskScore { b with tvl := tHigh }).score ∧
      (calculateRiskScore { b with tvl := "Unknown" }).score ≤
        (calculateRiskScore { b with tvl := tLow }).score := by
  obtain ⟨hne1, q1, hp1, hq1⟩ := hHigh
  obtain ⟨hne2, q2, hp2, hq2⟩ := hLow
  rw [riskScore_unknown { b with tvl := "Unknown" } h0 rfl,
      riskScore_high { b with tvl := tHigh } h0 hne1 q1 hp1 (not_lt.mpr hq1),
      riskScore_low { b with tvl := tLow } h0 hne2 q2 hp2 hq2]
  exact ⟨by norm_num, by norm_num⟩

/-- Claim C1 (witness for the amended theorem). -/
theorem c1_score_monotonicity_amended_witness :
    (calculateRiskScore { bEx with tvl := "Unknown" }).score ≤
        (calculateRiskScore { bEx with tvl := "$15.00M" }).score ∧
      (calculateRiskScore { bEx with tvl := "Unknown" }).score ≤
        (calculateRiskScore { bEx with tvl := "$5.00M" }).score :=
  c1_score_monotonicity_amended bEx "$15.00M" "$5.00M" (by decide)
    ⟨by decide, 15, parse_15M, by norm_num⟩ ⟨by decide, 5, parse_5M, by norm_num⟩

/-- Claim C4: a positive recent-incident count short-circuits the scorer to
score 0 and verdict DANGER regardless of TVL, with the single critical
explanation naming the incident count and no further rule applied. -/
theorem c4_incident_short_circuit (s : SecurityStats) (h : s.recent_hack_count > 0) :
    calculateRiskScore s =
      { score := 0, verdict := "DANGER",
        explanation := "DANGER: Protocol has " ++ toString s.recent_hack_count ++
          " recent hacks. Immediate risk." } := by
  unfold calculateRiskScore
  rw [if_pos h]

/-- Claim C4 (witness). -/
theorem c4_incident_short_circuit_witness :
    ({ bEx with recent_hack_count := 2 } : SecurityStats).recent_hack_count > 0 ∧
      calculateRiskScore { bEx with recent_hack_count := 2 } =
        { score := 0, verdict := "DANGER",
          explanation := "DANGER: Protocol has " ++
            toString ({ bEx with recent_hack_count := 2 } : SecurityStats).recent_hack_count ++
            " recent hacks. Immediate risk." } :=
  ⟨by decide, c4_incident_short_circuit { bEx with recent_hack_count := 2 } (by decide)⟩

/-- Claim C5: on stats with unknown TVL and an empty recent-incident list the
scorer returns score 70 and verdict CAUTION, with an explanation containing
the TVL-unavailable rule string. -/
theorem c5_unknown_tvl_scenario (s : SecurityStats) (h0 : s.recent_hack_count = 0)
    (_hd : s.hack_details = []) (ht : s.tvl = "Unknown") :
    (calculateRiskScore s).score = 70 ∧ (calculateRiskScore s).verdict = "CAUTION" ∧
      jsIncludes (calculateRiskScore s).explanation "TVL data unavailable" = true := by
  rw [riskScore_unknown s h0 ht]
  decide

/-- Claim C5 (witness). -/
theorem c5_unknown_tvl_scenario_witness :
    (calculateRiskScore sUnknownEx).score = 70 ∧
      (calculateRiskScore sUnknownEx).verdict = "CAUTION" ∧
      jsIncludes (calculateRiskScore sUnknownEx).explanation "TVL data unavailable" = true :=
  c5_unknown_tvl_scenario sUnknownEx (by decide) (by decide) (by decide)

/-- Claim C10: with no recent incidents the scorer's score is always 70, 80
or 100, and a known TVL below $10M yields exactly score 80 with verdict
SECURE, so the low-TVL penalty alone never demotes the verdict. -/
theorem c10_no_incident_score_range (s : SecurityStats) (h0 : s.recent_hack_count = 0) :
    ((calculateRiskScore s).score = 70 ∨ (calculateRiskScore s).score = 80 ∨
        (calculateRiskScore s).score = 100) ∧
      (tvlKnownLT10M s.tvl →
        (calculateRiskScore s).score = 80 ∧ (calculateRiskScore s).verdict = "SECURE") := by
  by_cases ht : s.tvl = "Unknown"
  · rw [riskScore_unknown s h0 ht]
    refine ⟨Or.inl rfl, ?_⟩
    rintro ⟨hne, -⟩
    exact absurd ht hne
  · rcases hp : jsParseFloat (stripNonNumeric s.tvl) with _ | q
    · rw [riskScore_nan s h0 ht hp]
      refine ⟨Or.inr (Or.inr rfl), ?_⟩
      rintro ⟨-, q', hq', -⟩
      rw [hp] at hq'
      exact Option.noConfusion hq'
    · by_cases hq : q < 10
      · rw [riskScore_low s h0 ht q hp hq]
        exact ⟨Or.inr (Or.inl rfl), fun _ => ⟨rfl, rfl⟩⟩
      · rw [riskScore_high s h0 ht q hp hq]
        refine ⟨Or.inr (Or.inr rfl), ?_⟩
        rintro ⟨-, q', hq', hlt⟩
        rw [hp] at hq'
        obtain rfl : q = q' := Option.some.inj hq'
        exact absurd hlt hq

/-- Claim C10 (witness). -/
theorem c10_no_incident_score_range_witness :
    (((calculateRiskScore sLowEx).score = 70 ∨ (calculateRiskScore sLowEx).score = 80 ∨
        (calculateRiskScore sLowEx).score = 100) ∧
      (tvlKnownLT10M sLowEx.tvl →
        (calculateRiskScore sLowEx).score = 80 ∧ (calculateRiskScore sLowEx).verdict = "SECURE")) :=
  c10_no_incident_score_range sLowEx (by decide)

/-- Claim C7 (counterexample): for bridgeKey `"stargatev2"` with no override
entry and a directory containing the slug `"stargate"`, the resolution does
not happen via the version-suffix-stripping rule (stage 3): the containment
rule (stage 2, the key contains the slug) fires first, so the claimed
conjunction of result and mechanism is false at this input. -/
theorem c7_stargatev2_stage_counterexample :
    ¬ ((getProtocolSlug env7 none "stargatev2").1 = "stargate" ∧
        resolutionStage "stargatev2" stargateDir = 3) := by
  decide

/-- Claim C7 (amended): bridgeKey `"stargatev2"` with no override entry and a
directory containing the slug `"stargate"` resolves to `"stargate"`, but via
the substring rule (the key contains the slug, stage 2), the
version-suffix-stripping stage never being reached. -/
theorem c7_stargatev2_substring_amended :
    (getProtocolSlug env7 none "stargatev2").1 = "stargate" ∧
      resolutionStage "stargatev2" stargateDir = 2 := by
  decide

/-- Claim C8: whenever the lower-cased, trimmed bridgeKey has an entry in the
static override table, `getProtocolSlug` returns that override's slug, for
every cache state and directory environment — in particular even when the
directory contains an entry that the exact, substring or version-stripped
rules would match. -/
theorem c8_override_precedence (env : Env) (cache : Option (List ProtocolEntry))
    (bridgeName s : String)
    (h : lookupMap overrides (jsTrim (jsToLower bridgeName)) = some s) :
    (getProtocolSlug env cache bridgeName).1 = s := by
  unfold getProtocolSlug
  dsimp only
  rw [h]

/-- Claim C8 (witness): `"cbridge"` resolves to the override `"celer-network"`
even though the cached directory contains an exact-match entry `"cbridge"`. -/
theorem c8_override_precedence_witness :
    (getProtocolSlug envC (some dirCbridge) "cbridge").1 = "celer-network" :=
  c8_override_precedence envC (some dirCbridge) "cbridge" "celer-network" (by decide)

/-- When every TVL fetch and the hacks fetch reject, `getSecurityStats`
returns the plain stats object with the `"Unknown"` TVL marker and a zero
recent-incident count (the catch-branch marker object is not produced:
`Promise.allSettled` absorbs the rejections). -/
theorem securityStats_all_rejected (env : Env) (cache : Option (List ProtocolEntry))
    (b mt mh : String) (htvl : ∀ sl, env.tvl sl = .rejected mt)
    (hh : env.hacks = .rejected mh) :
    (getSecurityStats env cache b).1 =
      SecurityOut.stats
        { bridge := b, tvl := "Unknown", recent_hack_count := 0, hack_details := [],
          audit_status := "Check L2Beat for details" } := by
  unfold getSecurityStats
  dsimp only
  rw [htvl, hh]
  rfl

/-- Claim C3 (counterexample): with both the TVL fetch and the hacks fetch
timing out, `getSecurityStats` returns a plain stats object whose
recent-incident count is the invented zero — not the unavailable-marker
object — so fetch-failed data is indistinguishable from a successful fetch
with no incidents. -/
theorem c3_no_unavailable_marker_counterexample :
    (getSecurityStats envDown none "wormhole").1 =
        SecurityOut.stats
          { bridge := "wormhole", tvl := "Unknown", recent_hack_count := 0,
            hack_details := [], audit_status := "Check L2Beat for details" } ∧
      (getSecurityStats envDown none "wormhole").1 ≠ SecurityOut.unavailable "wormhole" := by
  decide

/-- Claim C3 (amended): whenever both the TVL fetch and the incident-history
fetch fail, `getSecurityStats` returns a SecurityStats whose TVL field does
carry the explicit `"Unknown"` marker but whose recent-incident count is the
invented zero, identical in shape to successfully fetched data; the explicit
unavailable-marker object is only produced when processing a fulfilled
response throws, not on fetch failure. -/
theorem c3_both_fetches_fail_amended (env : Env) (cache : Option (List ProtocolEntry))
    (b mt mh : String) (htvl : ∀ sl, env.tvl sl = .rejected mt)
    (hh : env.hacks = .rejected mh) :
    (getSecurityStats env cache b).1 =
      SecurityOut.stats
        { bridge := b, tvl := "Unknown", recent_hack_count := 0, hack_details := [],
          audit_status := "Check L2Beat for details" } :=
  securityStats_all_rejected env cache b mt mh htvl hh

/-- Claim C3 (witness for the amended theorem). -/
theorem c3_both_fetches_fail_amended_witness :
    (getSecurityStats envDown none "hop").1 =
      SecurityOut.stats
        { bridge := "hop", tvl := "Unknown", recent_hack_count := 0, hack_details := [],
          audit_status := "Check L2Beat for details" } :=
  c3_both_fetches_fail_amended envDown none "hop"
    "timeout of 10000ms exceeded" "timeout of 10000ms exceeded" (fun _ => rfl) rfl

/-- NaN-absorbing addition has `some 0` as a right identity. -/
theorem nanAdd_zero_right (a : Option ℚ) : nanAdd a (some 0) = a := by
  cases a <;> simp [nanAdd]

/-- NaN-absorbing addition has `some 0` as a left identity. -/
theorem nanAdd_zero_left (a : Option ℚ) : nanAdd (some 0) a = a := by
  cases a <;> simp [nanAdd]

/-- NaN-absorbing addition is associative. -/
theorem nanAdd_assoc (a b c : Option ℚ) :
    nanAdd (nanAdd a b) c = nanAdd a (nanAdd b c) := by
  cases a <;> cases b <;> cases c <;> simp [nanAdd, add_assoc]

/-- NaN-absorbing addition is commutative. -/
theorem nanAdd_comm (a b : Option ℚ) : nanAdd a b = nanAdd b a := by
  cases a <;> cases b <;> simp [nanAdd, add_comm]

/-- The fee fold from any accumulator equals the accumulator added to the
fold from zero. -/
theorem sumUSD_shift (fees : List FeeCost) :
    ∀ acc : Option ℚ,
      fees.foldl (fun acc f => nanAdd acc (feeUSD f)) acc = nanAdd acc (sumUSD fees) := by
  induction fees with
  | nil => intro acc; simp [sumUSD, nanAdd_zero_right]
  | cons f fs ih =>
      intro acc
      have hsum : sumUSD (f :: fs) = nanAdd (feeUSD f) (sumUSD fs) := by
        unfold sumUSD
        rw [List.foldl_cons, ih (nanAdd (some 0) (feeUSD f)), nanAdd_zero_left]
        rfl
      rw [List.foldl_cons, ih (nanAdd acc (feeUSD f)), hsum, nanAdd_assoc]

/-- The fee fold distributes over list cons. -/
theorem sumUSD_cons (f : FeeCost) (fs : List FeeCost) :
    sumUSD (f :: fs) = nanAdd (feeUSD f) (sumUSD fs) := by
  unfold sumUSD
  rw [List.foldl_cons, sumUSD_shift, nanAdd_zero_left]
  rfl

/-- Claim C6: for every fee list the protocol-fee subtotal plus the
aggregator-fee subtotal (entries split by whether the fee name contains the
aggregator marker `LIFI`) equals the sum of all fee line items' USD amounts,
and for the empty list both subtotals are zero. -/
theorem c6_fee_decomposition (fees : List FeeCost) :
    nanAdd (sumUSD (protFees fees)) (sumUSD (aggFees fees)) = sumUSD fees ∧
      sumUSD (protFees ([] : List FeeCost)) = some 0 ∧
      sumUSD (aggFees ([] : List FeeCost)) = some 0 := by
  refine ⟨?_, rfl, rfl⟩
  induction fees with
  | nil => simp [protFees, aggFees, sumUSD, nanAdd]
  | cons f fs ih =>
      by_cases hLifi : jsIncludes f.name "LIFI" = true
      · have hagg : aggFees (f :: fs) = f :: aggFees fs := by
          simp [aggFees, List.filter_cons, hLifi]
        have hprot : protFees (f :: fs) = protFees fs := by
          simp [protFees, List.filter_cons, hLifi]
        rw [hagg, hprot, sumUSD_cons, sumUSD_cons, ← ih,
            nanAdd_comm (feeUSD f) (nanAdd (sumUSD (protFees fs)) (sumUSD (aggFees fs))),
            nanAdd_assoc, nanAdd_comm (sumUSD (aggFees fs)) (feeUSD f)]
      · have hagg : aggFees (f :: fs) = aggFees fs := by
          simp [aggFees, List.filter_cons, hLifi]
        have hprot : protFees (f :: fs) = f :: protFees fs := by
          simp [protFees, List.filter_cons, hLifi]
        rw [hagg, hprot, sumUSD_cons, sumUSD_cons, ← ih, nanAdd_assoc]

/-- With well-typed responses the security fetcher always returns the stats
form, never the catch-branch marker. -/
theorem getSecurityStats_stats (env : Env) (cache : Option (List ProtocolEntry))
    (b : String) :
    ∃ st, (getSecurityStats env cache b).1 = SecurityOut.stats st :=
  ⟨_, rfl⟩

/-- A route with at least one step is always processed to an option object,
and if every security fetch rejects, that option's risk is the degraded
TVL-unavailable assessment. -/
theorem processRoute_ok (env : Env) (cache : Option (List ProtocolEntry)) (r : Route)
    (h : r.steps ≠ []) :
    ∃ o c2 cs, processRoute env cache r = (Except.ok o, c2, cs) ∧
      (∀ mt mh, (∀ sl, env.tvl sl = .rejected mt) → env.hacks = .rejected mh →
        o.riskScore = 70 ∧ o.securityVerdict = "CAUTION" ∧
          o.securityReason = "Penalty: TVL data unavailable (-30)") := by
  rcases hs : r.steps with _ | ⟨step, rest⟩
  · exact absurd hs h
  · obtain ⟨st, hst⟩ := getSecurityStats_stats env cache step.toolKey
    have hpr : processRoute env cache r =
        (Except.ok
          { bridge := step.toolKey
            amountOut := r.toAmount
            gasCostUSD := r.gasCostUSD
            protocolFeeUSD := usdToFixed4 (sumUSD (protFees step.feeCosts))
            aggregatorFeeUSD := usdToFixed4 (sumUSD (aggFees step.feeCosts))
            executionDuration := formatDuration step.executionDuration
            riskScore := (calculateRiskScore st).score
            securityVerdict := (calculateRiskScore st).verdict
            securityReason := (calculateRiskScore st).explanation },
          (getSecurityStats env cache step.toolKey).2.1,
          (getSecurityStats env cache step.toolKey).2.2) := by
      unfold processRoute
      rw [hs]
      dsimp only
      rw [hst]
    refine ⟨_, _, _, hpr, ?_⟩
    intro mt mh htvl hh
    have hstat := securityStats_all_rejected env cache step.toolKey mt mh htvl hh
    rw [hst] at hstat
    injection hstat with hstat
    subst hstat
    rw [riskScore_unknown _ rfl rfl]
    exact ⟨rfl, rfl, rfl⟩

/-- Every route of a batch whose routes all carry steps is processed: the
batch succeeds with one option per route, degraded per route if every
security fetch rejects. -/
theorem processRoutes_ok (env : Env) (rs : List Route) :
    ∀ cache : Option (List ProtocolEntry), (∀ r ∈ rs, r.steps ≠ []) →
      ∃ os c2 cs, processRoutes env cache rs = (Except.ok os, c2, cs) ∧
        os.length = rs.length ∧
        (∀ mt mh, (∀ sl, env.tvl sl = .rejected mt) → env.hacks = .rejected mh →
          ∀ o ∈ os, o.riskScore = 70 ∧ o.securityVerdict = "CAUTION" ∧
            o.securityReason = "Penalty: TVL data unavailable (-30)") := by
  induction rs with
  | nil =>
      intro cache _
      exact ⟨[], cache, [], rfl, rfl, by intro mt mh _ _ o ho; cases ho⟩
  | cons r rs ih =>
      intro cache hne
      obtain ⟨o, c2, cs, hpr, hdeg⟩ := processRoute_ok env cache r (hne r (List.mem_cons_self r rs))
      obtain ⟨os, c3, cs2, hprs, hlen, hdegs⟩ :=
        ih c2 (fun x hx => hne x (List.mem_cons_of_mem r hx))
      refine ⟨o :: os, c3, cs ++ cs2, ?_, by simp [hlen], ?_⟩
      · show processRoutes env cache (r :: rs) = _
        unfold processRoutes
        rw [hpr]
        dsimp only
        rw [hprs]
      · intro mt mh htvl hh o' ho'
        rcases List.mem_cons.mp ho' with rfl | hmem
        · exact hdeg mt mh htvl hh
        · exact hdegs mt mh htvl hh o' hmem

/-- Claim C2: whenever the multi-route fetch succeeds with candidate routes
that each carry at least one step, `getBridgeOptions` returns `success: true`
with exactly one RouteOption per route, for every outcome of the per-route
security fetches — a failing security fetch never drops or aborts the other
routes; and when the security fetches reject (e.g. time out), each affected
option's risk assessment degrades to the TVL-unavailable state (score 70,
CAUTION) instead of the whole call returning `success: false`. -/
theorem c2_route_failure_isolation (env : Env) (cache : Option (List ProtocolEntry))
    (a : BridgeArgs) (rs : List Route)
    (hroutes : env.routes (bridgeParams env a) = .fulfilled rs)
    (hsteps : ∀ r ∈ rs, r.steps ≠ []) :
    ∃ os c2 cs, getBridgeOptions env cache a = (BridgeResult.ok os, c2, cs) ∧
      os.length = rs.length ∧
      (∀ mt mh, (∀ sl, env.tvl sl = .rejected mt) → env.hacks = .rejected mh →
        ∀ o ∈ os, o.riskScore = 70 ∧ o.securityVerdict = "CAUTION" ∧
          o.securityReason = "Penalty: TVL data unavailable (-30)") := by
  obtain ⟨os, c2, cs, hprs, hlen, hdeg⟩ := processRoutes_ok env rs cache hsteps
  refine ⟨os, c2,
    (resolveTokenAddr env (normalizeChain a.fromChainRaw) a.fromTokenRaw).2 ++
      (resolveTokenAddr env (normalizeChain a.toChainRaw) (effToToken a)).2 ++
      [NetCall.routesFetch (bridgeParams env a)] ++ cs, ?_, hlen, hdeg⟩
  unfold getBridgeOptions
  dsimp only
  rw [hroutes]
  dsimp only
  rw [hprs]

/-- Claim C2 (witness): a three-route comparison in which every security
fetch times out still returns all three RouteOptions. -/
theorem c2_route_failure_isolation_witness :
    ∃ os c2 cs, getBridgeOptions env2 none argsEx = (BridgeResult.ok os, c2, cs) ∧
      os.length = rsEx.length ∧
      (∀ mt mh, (∀ sl, env2.tvl sl = FetchResult.rejected mt) →
        env2.hacks = FetchResult.rejected mh →
        ∀ o ∈ os, o.riskScore = 70 ∧ o.securityVerdict = "CAUTION" ∧
          o.securityReason = "Penalty: TVL data unavailable (-30)") :=
  c2_route_failure_isolation env2 none argsEx rsEx rfl (by decide)

/-- The slug resolver issues at most the protocol-directory fetch. -/
theorem getProtocolSlug_calls (env : Env) (cache : Option (List ProtocolEntry)) (b : String) :
    (getProtocolSlug env cache b).2.2 = [] ∨
      (getProtocolSlug env cache b).2.2 = [NetCall.protocolsFetch] := by
  unfold getProtocolSlug
  dsimp only
  split
  · exact Or.inl rfl
  · split
    · exact Or.inl rfl
    · split
      · exact Or.inr rfl
      · exact Or.inr rfl

/-- The security fetcher never issues a token-lookup call. -/
theorem getSecurityStats_no_tokenLookup (env : Env) (cache : Option (List ProtocolEntry))
    (b : String) (c : ChainId) (t : String) :
    NetCall.tokenLookup c t ∉ (getSecurityStats env cache b).2.2 := by
  intro hmem
  have hcalls : (getSecurityStats env cache b).2.2 =
      (getProtocolSlug env cache b).2.2 ++
        [NetCall.tvlFetch (getProtocolSlug env cache b).1, NetCall.hacksFetch] := rfl
  rw [hcalls] at hmem
  rcases getProtocolSlug_calls env cache b with h | h <;> rw [h] at hmem <;> simp at hmem

/-- Per-route processing never issues a token-lookup call. -/
theorem processRoute_no_tokenLookup (env : Env) (cache : Option (List ProtocolEntry))
    (r : Route) (c : ChainId) (t : String) :
    NetCall.tokenLookup c t ∉ (processRoute env cache r).2.2 := by
  rcases hs : r.steps with _ | ⟨step, rest⟩
  · have hcalls : (processRoute env cache r).2.2 = [] := by
      unfold processRoute
      rw [hs]
    rw [hcalls]
    simp
  · have hcalls : (processRoute env cache r).2.2 =
        (getSecurityStats env cache step.toolKey).2.2 := by
      unfold processRoute
      rw [hs]
    rw [hcalls]
    exact getSecurityStats_no_tokenLookup env cache step.toolKey c t

/-- The batched per-route processing never issues a token-lookup call. -/
theorem processRoutes_no_tokenLookup (env : Env) (rs : List Route) :
    ∀ (cache : Option (List ProtocolEntry)) (c : ChainId) (t : String),
      NetCall.tokenLookup c t ∉ (processRoutes env cache rs).2.2 := by
  induction rs with
  | nil =>
      intro cache c t hmem
      simp [processRoutes] at hmem
  | cons r rs ih =>
      intro cache c t hmem
      have hcalls : (processRoutes env cache (r :: rs)).2.2 =
          (processRoute env cache r).2.2 ++
            (processRoutes env (processRoute env cache r).2.1 rs).2.2 := rfl
      rw [hcalls] at hmem
      rcases List.mem_append.mp hmem with hmem | hmem
      · exact processRoute_no_tokenLookup env cache r c t hmem
      · exact ih (processRoute env cache r).2.1 c t hmem

/-- An address-shaped token resolves without touching the network. -/
theorem resolveTokenAddr_pass (env : Env) (ch : ChainId) (raw : String)
    (h : jsStartsWith raw "0x" = true) :
    resolveTokenAddr env ch raw = (raw, []) := by
  unfold resolveTokenAddr
  rw [if_pos h]

/-- `getTokenDetails` issues exactly its one token-lookup call. -/
theorem getTokenDetails_calls (env : Env) (cr : ChainRef) (sym : String) :
    (getTokenDetails env cr sym).2 = [NetCall.tokenLookup (normalizeChain cr) sym] := by
  unfold getTokenDetails
  dsimp only
  split
  · rfl
  · split
    · rfl
    · rfl

/-- Any token-lookup call issued while resolving a token carries that token. -/
theorem resolveTokenAddr_calls_token (env : Env) (ch : ChainId) (raw : String)
    (c : ChainId) (t : String)
    (hmem : NetCall.tokenLookup c t ∈ (resolveTokenAddr env ch raw).2) : t = raw := by
  by_cases h : jsStartsWith raw "0x" = true
  · rw [resolveTokenAddr_pass env ch raw h] at hmem
    simp at hmem
  · have hcalls : (resolveTokenAddr env ch raw).2 = (getTokenDetails env ch.toRef raw).2 := by
      unfold resolveTokenAddr
      rw [if_neg h]
      dsimp only
      split
      · rfl
      · rfl
    rw [hcalls, getTokenDetails_calls] at hmem
    simp at hmem
    exact hmem.2

/-- The calls of `getBridgeOptions` decompose into the two token resolutions,
the route fetch, and the per-route batch. -/
theorem getBridgeOptions_tokenLookup_split (env : Env) (cache : Option (List ProtocolEntry))
    (a : BridgeArgs) (c : ChainId) (t : String)
    (hmem : NetCall.tokenLookup c t ∈ (getBridgeOptions env cache a).2.2) :
    NetCall.tokenLookup c t ∈
        (resolveTokenAddr env (normalizeChain a.fromChainRaw) a.fromTokenRaw).2 ∨
      NetCall.tokenLookup c t ∈
        (resolveTokenAddr env (normalizeChain a.toChainRaw) (effToToken a)).2 := by
  unfold getBridgeOptions at hmem
  dsimp only at hmem
  rcases hr : env.routes (bridgeParams env a) with rs | m <;> rw [hr] at hmem <;>
    dsimp only at hmem
  · rcases List.mem_append.mp hmem with hmem1 | hmem1
    · rcases List.mem_append.mp hmem1 with hmem2 | hmem2
      · rcases List.mem_append.mp hmem2 with hmem3 | hmem3
        · exact Or.inl hmem3
        · exact Or.inr hmem3
      · simp at hmem2
    · exact absurd hmem1 (processRoutes_no_tokenLookup env rs cache c t)
  · rcases List.mem_append.mp hmem with hmem1 | hmem1
    · rcases List.mem_append.mp hmem1 with hmem2 | hmem2
      · exact Or.inl hmem2
      · exact Or.inr hmem2
    · simp at hmem1

/-- The route fetch is always issued. -/
theorem routesFetch_called (env : Env) (cache : Option (List ProtocolEntry)) (a : BridgeArgs) :
    NetCall.routesFetch (bridgeParams env a) ∈ (getBridgeOptions env cache a).2.2 := by
  unfold getBridgeOptions
  dsimp only
  rcases hr : env.routes (bridgeParams env a) with rs | m <;> dsimp only <;> simp

/-- Claim C9: an address-shaped token input (starting with `0x`) is resolved
without any network token-lookup call for it and is passed through unchanged
into the multi-route request — stated for the source token and for the
effective destination token, each under its own address-shapedness premise,
together with the fact that the multi-route request itself is issued with
those parameters. -/
theorem c9_address_passthrough (env : Env) (cache : Option (List ProtocolEntry))
    (a : BridgeArgs) :
    NetCall.routesFetch (bridgeParams env a) ∈ (getBridgeOptions env cache a).2.2 ∧
      (jsStartsWith a.fromTokenRaw "0x" = true →
        (bridgeParams env a).fromTokenAddress = a.fromTokenRaw ∧
        ∀ c t, NetCall.tokenLookup c t ∈ (getBridgeOptions env cache a).2.2 →
          t ≠ a.fromTokenRaw) ∧
      (jsStartsWith (effToToken a) "0x" = true →
        (bridgeParams env a).toTokenAddress = effToToken a ∧
        ∀ c t, NetCall.tokenLookup c t ∈ (getBridgeOptions env cache a).2.2 →
          t ≠ effToToken a) := by
  refine ⟨routesFetch_called env cache a, ?_, ?_⟩
  · intro hfrom
    constructor
    · show (resolveTokenAddr env (normalizeChain a.fromChainRaw) a.fromTokenRaw).1 =
        a.fromTokenRaw
      rw [resolveTokenAddr_pass _ _ _ hfrom]
    · intro c t hmem heq
      rcases getBridgeOptions_tokenLookup_split env cache a c t hmem with hm | hm
      · rw [resolveTokenAddr_pass _ _ _ hfrom] at hm
        simp at hm
      · have hteq := resolveTokenAddr_calls_token env (normalizeChain a.toChainRaw)
          (effToToken a) c t hm
        have hbad : jsStartsWith (effToToken a) "0x" = true := by
          rw [← hteq, heq]
          exact hfrom
        rw [resolveTokenAddr_pass _ _ _ hbad] at hm
        simp at hm
  · intro hto
    constructor
    · show (resolveTokenAddr env (normalizeChain a.toChainRaw) (effToToken a)).1 =
        effToToken a
      rw [resolveTokenAddr_pass _ _ _ hto]
    · intro c t hmem heq
      rcases getBridgeOptions_tokenLookup_split env cache a c t hmem with hm | hm
      · have hteq := resolveTokenAddr_calls_token env (normalizeChain a.fromChainRaw)
          a.fromTokenRaw c t hm
        have hbad : jsStartsWith a.fromTokenRaw "0x" = true := by
          rw [← hteq, heq]
          exact hto
        rw [resolveTokenAddr_pass _ _ _ hbad] at hm
        simp at hm
      · rw [resolveTokenAddr_pass _ _ _ hto] at hm
        simp at hm

/-- Claim C9 (witness): with both tokens address-shaped, the source address
reaches the multi-route request unchanged. -/
theorem c9_address_passthrough_witness :
    (bridgeParams envDown args9).fromTokenAddress = args9.fromTokenRaw ∧
      (bridgeParams envDown args9).toTokenAddress = effToToken args9 :=
  ⟨((c9_address_passthrough envDown none args9).2.1 (by decide)).1,
   ((c9_address_passthrough envDown none args9).2.2 (by decide)).1⟩

end BridgeSafety
